import Mathlib

/-
Shallow embedding of the acquisition pipeline of `openinsider_scraper.py`
(repository wescules/insiderTradingAnalysis).

Modelling conventions:
* Python `dict[str, str]` values become association lists (`Dict` below);
  `data[key]` raising `KeyError` on a missing key becomes an
  `Except Unit` error where the source would raise.
* The parsed HTML response becomes `Page := Option (List Row)`:
  `none` models a response without a `table.tinytable` element; a `Row`
  carries its `td` cells, each cell carrying its raw text and the text of
  its first anchor element when one is present.
* `@retry(tries=3, delay=2, backoff=2)` on `_fetch_data` is unrolled into
  `fetchData`, which reports the transport result, the number of attempts
  made and the list of backoff delays slept.
* Wall-clock time and file modification times are integers (seconds);
  a cache file is `CacheFile` (mtime plus JSON content, where a content of
  `Except.error ()` models a file that `json.load` cannot parse).
* Note: line 191 of the source consists of two stray backtick characters,
  which the surrounding code cannot execute; the embedding of
  `_apply_filters` follows the executable statements around it.
-/

/-- The configuration record built by `_load_config` (the `ScraperConfig`
dataclass, lines 17-38 of the source). -/
structure ScraperConfig where
  output_dir : String
  output_file : String
  output_format : String
  start_year : Nat
  start_month : Nat
  max_workers : Nat
  retry_attempts : Nat
  timeout : Nat
  min_transaction_value : Int
  transaction_types : List String
  exclude_companies : List String
  include_companies : List String
  min_shares_traded : Nat
  log_level : String
  log_file : String
  rotate_logs : Bool
  max_log_size : Nat
  cache_enabled : Bool
  cache_dir : String
  cache_max_age : Int

/-- A Python `dict[str, str]` as an association list. -/
abbrev Dict := List (String × String)

/-- `d[k]` as an `Option`: `none` models the `KeyError` case. -/
def Dict.get (d : Dict) (k : String) : Option String :=
  Option.map Prod.snd (List.find? (fun p => p.1 == k) d)

/-- One `td` cell of a parsed table row: its raw text (`.text`) and the
text of its first anchor element when `cols[index].find('a')` is truthy. -/
structure Cell where
  anchorText : Option String
  text : String

/-- One `tr` row of the data table. -/
structure Row where
  cells : List Cell

/-- A fetched page after `BeautifulSoup` parsing: `none` when no
`table.tinytable` is found, otherwise the rows of its `tbody`. -/
abbrev Page := Option (List Row)

/-- Python's `str.strip()`: remove leading and trailing whitespace. -/
def stripStr (s : String) : String :=
  String.mk (((s.data.dropWhile Char.isWhitespace).reverse.dropWhile
    Char.isWhitespace).reverse)

/-- The value the scraper extracts from a cell (line 143 of the source):
the anchor's stripped text when an anchor is present, else the stripped
cell text. -/
def cellValue (c : Cell) : String :=
  match c.anchorText with
  | some a => stripStr a
  | none => stripStr c.text

/-- The fixed ordered field names of a record (lines 144-146). -/
def fieldNames : List String :=
  ["X", "filing_date", "trade_date", "ticker", "company_name",
   "owner_name", "Title", "transaction_type", "purchase_price", "Qty",
   "shares_held", "% change", "Value"]

/-- `tuple(insider_data.values())`: the ordered field values of one row,
one per field name (the source indexes `cols[0]` through `cols[12]`). -/
def rowTuple (r : Row) : List String :=
  (r.cells.take 13).map cellValue

/-- The `insider_data` dict built for a row (line 143): field names zipped
with the extracted cell values, in source order. -/
def rowDict (r : Row) : Dict :=
  List.zip fieldNames (rowTuple r)

/-- The body of `_apply_filters` (lines 178-195), as a function of the
three configured lists and the two dictionary lookups the source
performs; `Except.error ()` marks the points where Python would raise
`KeyError` on a missing field. -/
def filtersOn (types excl incl : List String) (tt tk : Option String) :
    Except Unit Bool :=
  let step2 : Except Unit Bool :=
    match tk with
    | none => Except.error ()
    | some t =>
      if excl.contains t then Except.ok false
      else if !incl.isEmpty && !incl.contains t then Except.ok false
      else Except.ok true
  if types.isEmpty then step2
  else
    match tt with
    | none => Except.error ()
    | some t =>
      if !(types.contains t) then Except.ok false else step2

/-- `_apply_filters` before its `except` clause: the evaluation of the
three conditions, raising where the source would raise. -/
def applyFiltersCore (c : ScraperConfig) (d : Dict) : Except Unit Bool :=
  filtersOn c.transaction_types c.exclude_companies c.include_companies
    (Dict.get d "transaction_type") (Dict.get d "ticker")

/-- `_apply_filters` (lines 178-195): any `ValueError`/`KeyError` raised
during evaluation is caught, logged as a warning, and turns into
rejection (`return False`). -/
def applyFilters (c : ScraperConfig) (d : Dict) : Bool :=
  match applyFiltersCore c d with
  | Except.ok b => b
  | Except.error _ => false

/-- The row loop of `_get_data_for_month` (lines 138-150): rows with no
cells are skipped (`if not cols: continue`); a row with fewer than the 13
required cells makes `cols[index]` raise `IndexError`, modelled as
`Except.error ()`; otherwise the record is added to the set when the
filter accepts it. -/
def parseRows (c : ScraperConfig) :
    List Row → Finset (List String) → Except Unit (Finset (List String))
  | [], acc => Except.ok acc
  | r :: rest, acc =>
    if r.cells.length = 0 then parseRows c rest acc
    else if 13 ≤ r.cells.length then
      (if applyFilters c (rowDict r) then
        parseRows c rest (insert (rowTuple r) acc)
      else parseRows c rest acc)
    else Except.error ()

/-- Parsing the rows of the data table into the `data` set, starting from
`data = set()` (line 136). -/
def parseTable (c : ScraperConfig) (rows : List Row) :
    Except Unit (Finset (List String)) :=
  parseRows c rows ∅

/-- Whether an `Except` value is an error. -/
def isErrB {ε α : Type} : Except ε α → Bool
  | Except.error _ => true
  | Except.ok _ => false

/-- `_fetch_data` under `@retry(tries=3, delay=2, backoff=2)` (lines
101-103), unrolled: a transport is a map from attempt index to outcome;
the result is the final transport outcome, the number of attempts made,
and the backoff delays slept between attempts (2, then doubled to 4). -/
def fetchData (transport : Nat → Except Unit Page) :
    Except Unit Page × Nat × List Nat :=
  match transport 0 with
  | Except.ok r => (Except.ok r, 1, [])
  | Except.error _ =>
    match transport 1 with
    | Except.ok r => (Except.ok r, 2, [2])
    | Except.error _ => (transport 2, 3, [2, 4])

/-- A cache file on disk: its modification time and its JSON content, a
collection of field-value lists (the source writes the set out as a JSON
array of arrays in unspecified set-iteration order, so the content is a
multiset); `Except.error ()` models a file whose content `json.load`
fails to parse. -/
structure CacheFile where
  mtime : Int
  content : Except Unit (Multiset (List String))

/-- `_is_cache_valid` (lines 108-112): the file exists and its age in
seconds is strictly below `cache_max_age` hours. -/
def isCacheValid (c : ScraperConfig) (cache : Option CacheFile) (now : Int) :
    Bool :=
  match cache with
  | none => false
  | some f => decide (now - f.mtime < c.cache_max_age * 3600)

/-- The observable outcome of one `_get_data_for_month` call: its return
value or raised error, the cache file for the unit afterwards, and how
many transport attempts were made. -/
structure UnitOutcome where
  result : Except Unit (Finset (List String))
  newCache : Option CacheFile
  attempts : Nat

/-- The fetch-and-parse part of the `try` block of `_get_data_for_month`
(lines 127-157): a transport error, a missing table, or a row `IndexError`
all end in the `except` branch / early return, i.e. an error here; only a
present table with fully parsed rows yields a record set. -/
def parseFetched (c : ScraperConfig) (resp : Except Unit Page) :
    Except Unit (Finset (List String)) :=
  match resp with
  | Except.error e => Except.error e
  | Except.ok none => Except.error ()
  | Except.ok (some rows) => parseTable c rows

/-- `_get_data_for_month` (lines 114-161). With caching enabled and a
valid cache file the file is read and returned as a set of tuples —
outside any `try`, so an unreadable file raises to the caller. Otherwise
the unit fetches with retry; any failure (transport, missing table, row
`IndexError`) is logged and the unit returns the empty set without
touching the cache; on success the record set is returned and, when
caching is enabled, written to the cache file with a fresh timestamp. -/
def getDataForMonth (c : ScraperConfig) (cache : Option CacheFile)
    (now : Int) (transport : Nat → Except Unit Page) : UnitOutcome :=
  if c.cache_enabled && isCacheValid c cache now then
    match cache with
    | none => ⟨Except.ok ∅, cache, 0⟩
    | some f =>
      match f.content with
      | Except.ok arrs => ⟨Except.ok arrs.toFinset, cache, 0⟩
      | Except.error e => ⟨Except.error e, cache, 0⟩
  else
    match parseFetched c (fetchData transport).1 with
    | Except.ok data =>
      if c.cache_enabled then
        ⟨Except.ok data, some ⟨now, Except.ok data.val⟩,
          (fetchData transport).2.1⟩
      else ⟨Except.ok data, cache, (fetchData transport).2.1⟩
    | Except.error _ => ⟨Except.ok ∅, cache, (fetchData transport).2.1⟩

/-- One iteration of the result loop of `scrape` (lines 218-225):
`all_data.extend(data)` appends every element of the unit's set on
success, and a caught-and-logged exception contributes nothing. The
aggregate is a multiset because set-iteration order is unspecified. -/
def mergeStep (acc : Multiset (List String))
    (r : Except Unit (Finset (List String))) : Multiset (List String) :=
  match r with
  | Except.ok s => acc + s.val
  | Except.error _ => acc

/-- The aggregation of `scrape` (lines 200-228): `all_data` starts empty
and each completed unit's result is folded in with `mergeStep`, in
completion order. -/
def mergeResults (rs : List (Except Unit (Finset (List String)))) :
    Multiset (List String) :=
  rs.foldl mergeStep 0

/-- What `_save_data` writes (lines 230-243). -/
inductive SavedFile where
  | csv (path : String)
  | parquet (path : String)

/-- `_save_data` (lines 230-243): writes CSV when the configured format
lower-cases to csv, parquet when it lower-cases to parquet, and otherwise
falls through both branches writing nothing and raising nothing. -/
def saveData (c : ScraperConfig) (data : List (List String)) :
    Option SavedFile :=
  let outputPath := c.output_dir ++ "/" ++ c.output_file
  if c.output_format.toLower == "csv" then some (SavedFile.csv outputPath)
  else if c.output_format.toLower == "parquet" then
    some (SavedFile.parquet outputPath)
  else none

/-- A baseline concrete configuration used by witnesses and
counterexamples: every filter list empty, caching disabled. -/
def cfg0 : ScraperConfig where
  output_dir := "data"
  output_file := "insider_trades.csv"
  output_format := "csv"
  start_year := 2020
  start_month := 1
  max_workers := 4
  retry_attempts := 5
  timeout := 10
  min_transaction_value := 0
  transaction_types := []
  exclude_companies := []
  include_companies := []
  min_shares_traded := 0
  log_level := "INFO"
  log_file := "scraper.log"
  rotate_logs := false
  max_log_size := 10
  cache_enabled := false
  cache_dir := "cache"
  cache_max_age := 24

/-- A transport that fails on every attempt. -/
def trFail : Nat → Except Unit Page := fun _ => Except.error ()

/-- A cell with no anchor element and the given raw text. -/
def cellOf (s : String) : Cell := ⟨none, s⟩

/-- A 13-cell row whose first cell holds the given text and whose other
cells hold the text x. -/
def rowOf (s : String) : Row := ⟨cellOf s :: List.replicate 12 (cellOf "x")⟩

/-- A transport whose response holds the rows s and a. -/
def trU1 : Nat → Except Unit Page :=
  fun _ => Except.ok (some [rowOf "s", rowOf "a"])

/-- A transport whose response holds the rows s and b. -/
def trU2 : Nat → Except Unit Page :=
  fun _ => Except.ok (some [rowOf "s", rowOf "b"])

/-- A row of 13 anchor-free cells whose raw text carries surrounding
whitespace. -/
def rowDup : Row := ⟨List.replicate 13 ⟨none, " v "⟩⟩

/-! ### Helper lemmas -/

theorem fetchData_attempts_pos (transport : Nat → Except Unit Page) :
    1 ≤ (fetchData transport).2.1 := by
  unfold fetchData
  cases h0 : transport 0 with
  | ok r => simp
  | error e =>
    cases h1 : transport 1 with
    | ok r => simp
    | error e1 => simp

theorem fetchData_attempts_le (transport : Nat → Except Unit Page) :
    (fetchData transport).2.1 ≤ 3 := by
  unfold fetchData
  cases h0 : transport 0 with
  | ok r => simp
  | error e =>
    cases h1 : transport 1 with
    | ok r => simp
    | error e1 => simp

theorem fetchData_first_ok (transport : Nat → Except Unit Page) (p : Page)
    (h : transport 0 = Except.ok p) :
    fetchData transport = (Except.ok p, 1, []) := by
  unfold fetchData
  rw [h]

theorem fetchData_all_fail (transport : Nat → Except Unit Page)
    (h : ∀ i, isErrB (transport i) = true) :
    fetchData transport = (transport 2, 3, [2, 4]) ∧
      isErrB (fetchData transport).1 = true := by
  have h0 := h 0
  have h1 := h 1
  have h2 := h 2
  unfold fetchData
  cases e0 : transport 0 with
  | ok r => rw [e0] at h0; simp [isErrB] at h0
  | error u =>
    cases e1 : transport 1 with
    | ok r => rw [e1] at h1; simp [isErrB] at h1
    | error u1 => exact ⟨rfl, h2⟩

theorem fetchData_res (transport : Nat → Except Unit Page) :
    (fetchData transport).1 = transport ((fetchData transport).2.1 - 1) ∧
    (fetchData transport).2.2 =
      [2, 4].take ((fetchData transport).2.1 - 1) ∧
    (∀ i, i < (fetchData transport).2.1 - 1 → isErrB (transport i) = true) ∧
    ((fetchData transport).2.1 < 3 →
      isErrB (transport ((fetchData transport).2.1 - 1)) = false) := by
  unfold fetchData
  cases e0 : transport 0 with
  | ok r =>
    refine ⟨by simp [e0], by simp, ?_, by simp [e0, isErrB]⟩
    intro i hi
    simp at hi
  | error u =>
    cases e1 : transport 1 with
    | ok r =>
      refine ⟨by simp [e1], by simp, ?_, by simp [e1, isErrB]⟩
      intro i hi
      simp at hi
      subst hi
      simp [e0, isErrB]
    | error u1 =>
      refine ⟨by simp, by simp, ?_, by simp⟩
      intro i hi
      simp at hi
      interval_cases i
      · simp [e0, isErrB]
      · simp [e1, isErrB]

theorem foldl_mergeStep_neutral (x : Except Unit (Finset (List String)))
    (hx : ∀ acc, mergeStep acc x = acc)
    (pre post : List (Except Unit (Finset (List String)))) :
    mergeResults (pre ++ x :: post) = mergeResults (pre ++ post) := by
  unfold mergeResults
  rw [List.foldl_append, List.foldl_append, List.foldl_cons, hx]

theorem mergeStep_ok_empty (acc : Multiset (List String)) :
    mergeStep acc (Except.ok (∅ : Finset (List String))) = acc := by
  simp [mergeStep]

theorem mergeStep_error (acc : Multiset (List String)) (e : Unit) :
    mergeStep acc (Except.error e) = acc := rfl

theorem mergeResults_card_aux (rs : List (Finset (List String)))
    (acc : Multiset (List String)) :
    ((rs.map Except.ok).foldl mergeStep acc).card =
      acc.card + (rs.map Finset.card).sum := by
  induction rs generalizing acc with
  | nil => simp [mergeResults]
  | cons s rest ih =>
    simp only [List.map_cons, List.foldl_cons, List.sum_cons]
    rw [ih]
    simp only [mergeStep, Multiset.card_add, Finset.card_def]
    omega

theorem dict_get_fields13 (l : List String) (h : l.length = 13) :
    Dict.get (List.zip fieldNames l) "transaction_type" = l.get? 7 ∧
    Dict.get (List.zip fieldNames l) "ticker" = l.get? 3 := by
  match l, h with
  | [a0, a1, a2, a3, a4, a5, a6, a7, a8, a9, a10, a11, a12], _ =>
    exact ⟨rfl, rfl⟩

theorem filters_accept_all (c : ScraperConfig) (d : Dict)
    (h1 : c.transaction_types = []) (h2 : c.exclude_companies = [])
    (h3 : c.include_companies = []) (tk : String)
    (h4 : Dict.get d "ticker" = some tk) :
    applyFilters c d = true := by
  simp [applyFilters, applyFiltersCore, filtersOn, h1, h2, h3, h4]

theorem rowTuple_length (r : Row) (h : 13 ≤ r.cells.length) :
    (rowTuple r).length = 13 := by
  simp [rowTuple]
  omega

theorem rowDict_ticker (r : Row) (h : 13 ≤ r.cells.length) :
    ∃ tk, Dict.get (rowDict r) "ticker" = some tk := by
  have hl := rowTuple_length r h
  have hd := (dict_get_fields13 (rowTuple r) hl).2
  have h3 : 3 < (rowTuple r).length := by omega
  rw [rowDict, hd, List.get?_eq_get h3]
  exact ⟨_, rfl⟩

theorem parseRows_ok_of_wf (c : ScraperConfig) (rows : List Row)
    (h : ∀ r ∈ rows, r.cells = [] ∨ 13 ≤ r.cells.length)
    (acc : Finset (List String)) :
    ∃ s, parseRows c rows acc = Except.ok s := by
  induction rows generalizing acc with
  | nil => exact ⟨acc, rfl⟩
  | cons r rest ih =>
    have hr := h r (by simp)
    have hrest : ∀ x ∈ rest, x.cells = [] ∨ 13 ≤ x.cells.length :=
      fun x hx => h x (by simp [hx])
    rcases hr with hr | hr
    · rw [parseRows, if_pos (by simp [hr])]
      exact ih hrest acc
    · rw [parseRows, if_neg (by omega), if_pos hr]
      cases applyFilters c (rowDict r) with
      | true => simpa using ih hrest (insert (rowTuple r) acc)
      | false => simpa using ih hrest acc

theorem parseRows_accept_all (c : ScraperConfig)
    (ht : c.transaction_types = []) (he : c.exclude_companies = [])
    (hi : c.include_companies = []) (rows : List Row)
    (hcells : ∀ r ∈ rows, 13 ≤ r.cells.length) (acc : Finset (List String)) :
    parseRows c rows acc =
      Except.ok (rows.foldl (fun a r => insert (rowTuple r) a) acc) := by
  induction rows generalizing acc with
  | nil => rfl
  | cons r rest ih =>
    have hr : 13 ≤ r.cells.length := hcells r (by simp)
    have hrest : ∀ x ∈ rest, 13 ≤ x.cells.length :=
      fun x hx => hcells x (by simp [hx])
    obtain ⟨tk, htk⟩ := rowDict_ticker r hr
    have hacc : applyFilters c (rowDict r) = true :=
      filters_accept_all c (rowDict r) ht he hi tk htk
    rw [parseRows, if_neg (by omega), if_pos hr, if_pos hacc,
      List.foldl_cons]
    exact ih hrest (insert (rowTuple r) acc)

theorem foldl_insert_eq_toFinset (rows : List Row)
    (acc : Finset (List String)) :
    rows.foldl (fun a r => insert (rowTuple r) a) acc =
      acc ∪ (rows.map rowTuple).toFinset := by
  induction rows generalizing acc with
  | nil => simp
  | cons r rest ih =>
    rw [List.foldl_cons, ih]
    ext x
    simp [or_assoc]

theorem getDataForMonth_hit (c : ScraperConfig) (f : CacheFile) (now : Int)
    (transport : Nat → Except Unit Page)
    (hguard : (c.cache_enabled && isCacheValid c (some f) now) = true) :
    getDataForMonth c (some f) now transport =
      match f.content with
      | Except.ok arrs => ⟨Except.ok arrs.toFinset, some f, 0⟩
      | Except.error e => ⟨Except.error e, some f, 0⟩ := by
  unfold getDataForMonth
  rw [if_pos hguard]

theorem getDataForMonth_miss (c : ScraperConfig) (cache : Option CacheFile)
    (now : Int) (transport : Nat → Except Unit Page)
    (hguard : (c.cache_enabled && isCacheValid c cache now) = false) :
    getDataForMonth c cache now transport =
      match parseFetched c (fetchData transport).1 with
      | Except.ok data =>
        if c.cache_enabled then
          ⟨Except.ok data, some ⟨now, Except.ok data.val⟩,
            (fetchData transport).2.1⟩
        else ⟨Except.ok data, cache, (fetchData transport).2.1⟩
      | Except.error _ => ⟨Except.ok ∅, cache, (fetchData transport).2.1⟩ := by
  unfold getDataForMonth
  rw [if_neg (by simp [hguard])]

theorem getDataForMonth_miss_attempts (c : ScraperConfig)
    (cache : Option CacheFile) (now : Int)
    (transport : Nat → Except Unit Page)
    (hguard : (c.cache_enabled && isCacheValid c cache now) = false) :
    (getDataForMonth c cache now transport).attempts =
      (fetchData transport).2.1 := by
  rw [getDataForMonth_miss c cache now transport hguard]
  cases hp : parseFetched c (fetchData transport).1 with
  | ok data =>
    cases hc : c.cache_enabled <;> simp [hc]
  | error e => rfl

theorem getDataForMonth_miss_result (c : ScraperConfig)
    (cache : Option CacheFile) (now : Int)
    (transport : Nat → Except Unit Page)
    (hguard : (c.cache_enabled && isCacheValid c cache now) = false) :
    ∃ s, (getDataForMonth c cache now transport).result = Except.ok s := by
  rw [getDataForMonth_miss c cache now transport hguard]
  cases hp : parseFetched c (fetchData transport).1 with
  | ok data =>
    cases hc : c.cache_enabled <;> simp [hc]
  | error e => exact ⟨∅, rfl⟩

theorem getDataForMonth_miss_err (c : ScraperConfig)
    (cache : Option CacheFile) (now : Int)
    (transport : Nat → Except Unit Page)
    (hguard : (c.cache_enabled && isCacheValid c cache now) = false)
    (e : Unit) (hp : parseFetched c (fetchData transport).1 = Except.error e) :
    getDataForMonth c cache now transport =
      ⟨Except.ok ∅, cache, (fetchData transport).2.1⟩ := by
  rw [getDataForMonth_miss c cache now transport hguard, hp]

theorem getDataForMonth_miss_ok (c : ScraperConfig)
    (cache : Option CacheFile) (now : Int)
    (transport : Nat → Except Unit Page)
    (hguard : (c.cache_enabled && isCacheValid c cache now) = false)
    (data : Finset (List String))
    (hp : parseFetched c (fetchData transport).1 = Except.ok data)
    (hc : c.cache_enabled = true) :
    getDataForMonth c cache now transport =
      ⟨Except.ok data, some ⟨now, Except.ok data.val⟩,
        (fetchData transport).2.1⟩ := by
  rw [getDataForMonth_miss c cache now transport hguard, hp]
  simp [hc]

/-! ### Claim theorems -/

/-- C1 counterexample: two fetch units whose responses share one identical
record (full field-tuple equality, first field s) while each contributes
one unique record (a, resp. b). The aggregate `scrape` builds holds 4
records, not the 3 the claim demands, because `all_data` is a list that
`extend` concatenates; likewise, merging the same completed unit twice
yields 4 records, not the 2 that set-union idempotence would give. The
set union of the two unit results does have 3 elements, as the last
conjunct shows, but it is not what the code computes. -/
theorem merge_shared_records_counterexample :
    (mergeResults [(getDataForMonth cfg0 none 0 trU1).result,
      (getDataForMonth cfg0 none 0 trU2).result]).card = 4 ∧
    (mergeResults [(getDataForMonth cfg0 none 0 trU1).result,
      (getDataForMonth cfg0 none 0 trU1).result]).card = 4 ∧
    (({rowTuple (rowOf "s"), rowTuple (rowOf "a")} ∪
      {rowTuple (rowOf "s"), rowTuple (rowOf "b")} :
        Finset (List String))).card = 3 := by
  refine ⟨by decide, by decide, by decide⟩

/-- C1 (amended): the aggregate merge of `scrape` is list concatenation of
the per-unit record sets, not RecordKey-based set union: the final
aggregate size is the sum of the unit set sizes. Deduplication happens
only inside each unit's set, so a record shared by two units appears
twice in the final aggregate (the shared-record scenario yields 4
records, not 3) and merging the same unit result twice contributes its
records twice rather than being idempotent. -/
theorem merge_concat_spec (rs : List (Finset (List String))) :
    (mergeResults (rs.map Except.ok)).card = (rs.map Finset.card).sum := by
  simpa [mergeResults] using mergeResults_card_aux rs 0

/-- C2 counterexample: with `retry_attempts` configured as 1 and a
transport that fails every attempt, `_fetch_data` still makes 3 attempts,
more than the configured count: the `@retry(tries=3, delay=2, backoff=2)`
decorator ignores the `retry_attempts` configuration field. -/
theorem retry_count_ignores_config_counterexample :
    (fetchData trFail).2.1 = 3 ∧
    ({cfg0 with retry_attempts := 1} : ScraperConfig).retry_attempts = 1 ∧
    ¬((fetchData trFail).2.1 ≤
      ({cfg0 with retry_attempts := 1} : ScraperConfig).retry_attempts) := by
  refine ⟨rfl, rfl, by decide⟩

/-- C2 (amended): on transport failure the Fetch Client retries up to a
fixed count of 3 attempts — hard-coded in the retry decorator, the
configured `retry_attempts` field is not consulted — with exponential
backoff starting at a base delay of 2 and doubling each attempt. For
every transport: between 1 and 3 attempts are made, never more; the
delays slept form the corresponding prefix of [2, 4]; the outcome is that
of the last attempt made; every earlier attempt failed; and fewer than 3
attempts are made only because the last attempt succeeded. -/
theorem fetch_retry_fixed_three_spec (transport : Nat → Except Unit Page) :
    1 ≤ (fetchData transport).2.1 ∧ (fetchData transport).2.1 ≤ 3 ∧
    (fetchData transport).2.2 = [2, 4].take ((fetchData transport).2.1 - 1) ∧
    (fetchData transport).1 = transport ((fetchData transport).2.1 - 1) ∧
    (∀ i, i < (fetchData transport).2.1 - 1 → isErrB (transport i) = true) ∧
    ((fetchData transport).2.1 < 3 →
      isErrB (transport ((fetchData transport).2.1 - 1)) = false) :=
  ⟨fetchData_attempts_pos transport, fetchData_attempts_le transport,
   (fetchData_res transport).2.1, (fetchData_res transport).1,
   (fetchData_res transport).2.2.1, (fetchData_res transport).2.2.2⟩

/-- C2 witness: the amended retry bound evaluated at the always-failing
transport. -/
theorem fetch_retry_fixed_three_spec_witness :
    1 ≤ (fetchData trFail).2.1 ∧ (fetchData trFail).2.1 ≤ 3 ∧
    (fetchData trFail).2.2 = [2, 4].take ((fetchData trFail).2.1 - 1) ∧
    (fetchData trFail).1 = trFail ((fetchData trFail).2.1 - 1) ∧
    (∀ i, i < (fetchData trFail).2.1 - 1 → isErrB (trFail i) = true) ∧
    ((fetchData trFail).2.1 < 3 →
      isErrB (trFail ((fetchData trFail).2.1 - 1)) = false) :=
  fetch_retry_fixed_three_spec trFail

/-- C10: `_save_data` writes an output file exactly when the configured
output format lower-cases to csv or to parquet; for any other format
string both branches of the if/elif fall through, nothing is written, and
no error is raised or reported. -/
theorem save_format_gate_spec (c : ScraperConfig) (data : List (List String)) :
    (saveData c data).isSome =
      (c.output_format.toLower == "csv" ||
        c.output_format.toLower == "parquet") := by
  cases h1 : c.output_format.toLower == "csv" <;>
    cases h2 : c.output_format.toLower == "parquet" <;>
      simp [saveData, h1, h2]

/-- C3: for a unit with caching enabled and a readable cache file, the
cached record set is reused with zero Fetch Client invocations exactly
when the cache file exists and its age at query time is strictly below
`cache_max_age` hours; for a file at or past that age the unit performs a
live fetch (at least one transport attempt), and when that fetch returns
a parseable table the unit replaces the entry with a new one carrying the
query-time timestamp (on a failed fetch or unparseable response the
source writes nothing, so the replacement conjunct is stated for a
successful fetch-and-parse, matching the Cache Store put contract). -/
theorem cache_freshness_spec (c : ScraperConfig) (cache : Option CacheFile)
    (now : Int) (transport : Nat → Except Unit Page)
    (hen : c.cache_enabled = true)
    (hread : ∀ f, cache = some f → ∃ arrs, f.content = Except.ok arrs) :
    (((getDataForMonth c cache now transport).attempts = 0 ∧
      ∃ f arrs, cache = some f ∧ f.content = Except.ok arrs ∧
        (getDataForMonth c cache now transport).result =
          Except.ok arrs.toFinset)
     ↔ ∃ f, cache = some f ∧ now - f.mtime < c.cache_max_age * 3600) ∧
    (∀ f, cache = some f → c.cache_max_age * 3600 ≤ now - f.mtime →
      1 ≤ (getDataForMonth c cache now transport).attempts ∧
      (∀ rows data, transport 0 = Except.ok (some rows) →
        parseTable c rows = Except.ok data →
        (getDataForMonth c cache now transport).newCache =
          some ⟨now, Except.ok data.val⟩)) := by
  constructor
  · constructor
    · rintro ⟨hatt, f, arrs, hcache, hcont, hres⟩
      refine ⟨f, hcache, ?_⟩
      by_contra hstale
      push_neg at hstale
      have hguard : (c.cache_enabled && isCacheValid c cache now) = false := by
        subst hcache
        simp [isCacheValid, hen]
        omega
      have hm := getDataForMonth_miss_attempts c cache now transport hguard
      have hpos := fetchData_attempts_pos transport
      omega
    · rintro ⟨f, hcache, hfresh⟩
      obtain ⟨arrs, hcont⟩ := hread f hcache
      subst hcache
      have hguard : (c.cache_enabled && isCacheValid c (some f) now) = true := by
        simp [isCacheValid, hen, hfresh]
      have h := getDataForMonth_hit c f now transport hguard
      refine ⟨?_, f, arrs, rfl, hcont, ?_⟩ <;> rw [h, hcont]
  · intro f hcache hstale
    subst hcache
    have hguard : (c.cache_enabled && isCacheValid c (some f) now) = false := by
      simp [isCacheValid, hen]
      omega
    constructor
    · rw [getDataForMonth_miss_attempts c (some f) now transport hguard]
      exact fetchData_attempts_pos transport
    · intro rows data htr hparse
      have hfd := fetchData_first_ok transport (some rows) htr
      have hp : parseFetched c (fetchData transport).1 = Except.ok data := by
        rw [hfd]
        exact hparse
      rw [getDataForMonth_miss_ok c (some f) now transport hguard data hp hen]

/-- C3 witness: a fresh readable entry (age 10 seconds, max age 24 hours)
is reused without invoking the transport. -/
theorem cache_freshness_spec_witness :
    (getDataForMonth {cfg0 with cache_enabled := true}
      (some ⟨0, Except.ok {["a"]}⟩) 10 trFail).attempts = 0 := by
  have h := cache_freshness_spec {cfg0 with cache_enabled := true}
    (some ⟨0, Except.ok {["a"]}⟩) 10 trFail rfl
    (fun f hf => by injection hf with h2; exact ⟨{["a"]}, by rw [← h2]⟩)
  exact (h.1.mpr ⟨_, rfl, by decide⟩).1

/-- C4 counterexample: a cache file that is fresh (age 0, max age 24
hours) but whose content is corrupt. The unit makes zero transport
attempts — no live fetch is triggered even though the supplied transport
would have answered with a parseable page — and the cache error is raised
to the caller of the unit worker instead of being contained. -/
theorem corrupt_cache_counterexample :
    (getDataForMonth {cfg0 with cache_enabled := true}
      (some ⟨0, Except.error ()⟩) 0 trU1).attempts = 0 ∧
    (getDataForMonth {cfg0 with cache_enabled := true}
      (some ⟨0, Except.error ()⟩) 0 trU1).result = Except.error () :=
  ⟨rfl, rfl⟩

/-- C4 (amended): a fresh but unreadable/corrupt cache file is NOT
treated as a cache miss: the cache read sits outside the `try` block, so
the unit worker raises the cache error to its caller without attempting a
live fetch and without touching the cache file; the run as a whole still
completes because `scrape` catches the error at `future.result()`, logs
it, and merges the remaining units — the corrupt unit contributing no
records. -/
theorem corrupt_cache_error_propagates (c : ScraperConfig) (f : CacheFile)
    (now : Int) (transport : Nat → Except Unit Page)
    (hen : c.cache_enabled = true)
    (hfresh : now - f.mtime < c.cache_max_age * 3600)
    (e : Unit) (hcorrupt : f.content = Except.error e) :
    getDataForMonth c (some f) now transport = ⟨Except.error e, some f, 0⟩ ∧
    (∀ pre post, mergeResults (pre ++
      (getDataForMonth c (some f) now transport).result :: post) =
      mergeResults (pre ++ post)) := by
  have hguard : (c.cache_enabled && isCacheValid c (some f) now) = true := by
    simp [isCacheValid, hen, hfresh]
  have h := getDataForMonth_hit c f now transport hguard
  rw [h, hcorrupt]
  exact ⟨rfl, fun pre post =>
    foldl_mergeStep_neutral _ (fun acc => mergeStep_error acc e) pre post⟩

/-- C4 witness: the corrupt-cache behaviour evaluated at a concrete
configuration, cache file and transport. -/
theorem corrupt_cache_error_propagates_witness :
    getDataForMonth {cfg0 with cache_enabled := true}
      (some ⟨0, Except.error ()⟩) 5 trFail =
      ⟨Except.error (), some ⟨0, Except.error ()⟩, 0⟩ :=
  (corrupt_cache_error_propagates {cfg0 with cache_enabled := true}
    ⟨0, Except.error ()⟩ 5 trFail rfl (by decide) () rfl).1

/-- C5 counterexample: a response of 2 data rows (each with all 13
required cells and no anchor elements) whose rows are identical and whose
cell text carries surrounding whitespace. The parse yields 1 record, not
2 — the output is a set, so identical rows collapse — and the stored
field value is the stripped text v, not the raw cell text which has
spaces around it. -/
theorem parse_duplicate_rows_counterexample :
    parseTable cfg0 [rowDup, rowDup] =
      Except.ok ({List.replicate 13 "v"} : Finset (List String)) ∧
    ({List.replicate 13 "v"} : Finset (List String)).card = 1 ∧
    stripStr " v " = "v" ∧ (" v " : String) ≠ "v" :=
  ⟨rfl, by decide, rfl, by decide⟩

/-- C5 (amended): the extracted field value is the STRIPPED anchor text
when the cell contains an anchor and the STRIPPED cell text otherwise
(the source calls `.strip()` on both); a response with N data rows, each
with all required cells and no anchor elements, whose extracted row
tuples are pairwise distinct, yields — with a filter accepting
everything — exactly N records whose field values equal the stripped
cell text per field (identical rows would collapse, since the output is
a set keyed by the full tuple). -/
theorem parse_rows_spec (c : ScraperConfig) (rows : List Row)
    (ht : c.transaction_types = []) (he : c.exclude_companies = [])
    (hi : c.include_companies = [])
    (hcells : ∀ r ∈ rows, 13 ≤ r.cells.length)
    (hanchor : ∀ r ∈ rows, ∀ cl ∈ r.cells, cl.anchorText = none)
    (hnd : (rows.map rowTuple).Nodup) :
    parseTable c rows = Except.ok (rows.map rowTuple).toFinset ∧
    (rows.map rowTuple).toFinset.card = rows.length ∧
    (∀ r ∈ rows,
      rowTuple r = (r.cells.take 13).map (fun cl => stripStr cl.text)) ∧
    (∀ a t, cellValue ⟨some a, t⟩ = stripStr a) ∧
    (∀ t, cellValue ⟨none, t⟩ = stripStr t) := by
  refine ⟨?_, ?_, ?_, fun a t => rfl, fun t => rfl⟩
  · rw [parseTable, parseRows_accept_all c ht he hi rows hcells ∅,
      foldl_insert_eq_toFinset]
    simp
  · rw [List.toFinset_card_of_nodup hnd, List.length_map]
  · intro r hr
    rw [rowTuple]
    apply List.map_congr_left
    intro cl hcl
    have hnone := hanchor r hr cl (List.take_subset 13 r.cells hcl)
    simp [cellValue, hnone]

/-- C5 witness: two distinct anchor-free 13-cell rows parse to exactly
two records. -/
theorem parse_rows_spec_witness :
    parseTable cfg0 [rowOf "a", rowOf "b"] =
      Except.ok (([rowOf "a", rowOf "b"].map rowTuple).toFinset) ∧
    ([rowOf "a", rowOf "b"].map rowTuple).toFinset.card = 2 :=
  ⟨(parse_rows_spec cfg0 [rowOf "a", rowOf "b"] rfl rfl rfl (by decide)
      (by decide) (by decide)).1,
   (parse_rows_spec cfg0 [rowOf "a", rowOf "b"] rfl rfl rfl (by decide)
      (by decide) (by decide)).2.1⟩

/-- C6: on a record carrying both fields, `_apply_filters` computes the
conjunction, in source order, of: the transaction-type allow-list check
(an empty allow-list passes everything), the ticker exclusion check, and
the ticker inclusion allow-list check (an empty allow-list passes
everything); in particular a record whose ticker is in the exclusion
list is rejected even when that ticker is also in the inclusion list. -/
theorem filter_order_spec (c : ScraperConfig) (d : Dict) (tt tk : String)
    (h1 : Dict.get d "transaction_type" = some tt)
    (h2 : Dict.get d "ticker" = some tk) :
    applyFilters c d =
      ((c.transaction_types.isEmpty || c.transaction_types.contains tt) &&
       !(c.exclude_companies.contains tk) &&
       (c.include_companies.isEmpty || c.include_companies.contains tk)) ∧
    (c.exclude_companies.contains tk = true → applyFilters c d = false) := by
  have hchar : applyFilters c d =
      ((c.transaction_types.isEmpty || c.transaction_types.contains tt) &&
       !(c.exclude_companies.contains tk) &&
       (c.include_companies.isEmpty || c.include_companies.contains tk)) := by
    simp only [applyFilters, applyFiltersCore, filtersOn, h1, h2]
    cases hty : c.transaction_types.isEmpty <;>
    cases htc : c.transaction_types.contains tt <;>
    cases hex : c.exclude_companies.contains tk <;>
    cases hin : c.include_companies.isEmpty <;>
    cases hic : c.include_companies.contains tk <;>
    simp [hty, htc, hex, hin, hic]
  exact ⟨hchar, fun hex => by rw [hchar, hex]; simp⟩

/-- C6 witness: a ticker in both the exclusion and the inclusion list is
rejected. -/
theorem filter_order_spec_witness :
    applyFilters
      {cfg0 with exclude_companies := ["T"], include_companies := ["T"]}
      [("transaction_type", "P - Purchase"), ("ticker", "T")] = false :=
  (filter_order_spec
    {cfg0 with exclude_companies := ["T"], include_companies := ["T"]}
    [("transaction_type", "P - Purchase"), ("ticker", "T")]
    "P - Purchase" "T" rfl rfl).2 rfl

/-- C7: the filter predicate never raises: whenever the evaluation of the
filter body would raise (a missing field), `_apply_filters` catches it
and returns rejection; consequently the enclosing unit worker's row loop
cannot fail because of the predicate — for any configuration and any rows
that are each either cell-free or carry the 13 required cells, parsing
succeeds with some record set regardless of field contents. -/
theorem filter_no_crash_spec (c : ScraperConfig) (d : Dict)
    (rows : List Row) :
    (isErrB (applyFiltersCore c d) = true → applyFilters c d = false) ∧
    ((∀ r ∈ rows, r.cells = [] ∨ 13 ≤ r.cells.length) →
      ∃ s, parseTable c rows = Except.ok s) := by
  constructor
  · intro herr
    cases hcore : applyFiltersCore c d with
    | ok b => rw [hcore] at herr; simp [isErrB] at herr
    | error e => unfold applyFilters; rw [hcore]
  · intro hwf
    exact parseRows_ok_of_wf c rows hwf ∅

/-- C7 witness: a record with no fields at all is rejected, not a crash,
and an empty row list parses successfully. -/
theorem filter_no_crash_spec_witness :
    applyFilters cfg0 [] = false ∧
    ∃ s, parseTable cfg0 [] = Except.ok s :=
  ⟨(filter_no_crash_spec cfg0 [] []).1 rfl,
   (filter_no_crash_spec cfg0 [] []).2 (by simp)⟩

/-- C8: a unit that performs a live fetch (cache disabled or no valid
entry) against a transport failing on every attempt resolves to the
empty record set — an ok result, not an error — after the full 3
attempts, and merging that unit's result into the aggregate leaves the
aggregate of all other units unchanged, so the overall run completes
with the other units' records. -/
theorem failed_transport_empty_spec (c : ScraperConfig)
    (cache : Option CacheFile) (now : Int)
    (transport : Nat → Except Unit Page)
    (hfail : ∀ i, isErrB (transport i) = true)
    (hmiss : (c.cache_enabled && isCacheValid c cache now) = false) :
    (getDataForMonth c cache now transport).result =
      Except.ok (∅ : Finset (List String)) ∧
    (getDataForMonth c cache now transport).attempts = 3 ∧
    (∀ pre post, mergeResults (pre ++
      (getDataForMonth c cache now transport).result :: post) =
      mergeResults (pre ++ post)) := by
  obtain ⟨hfd, herr⟩ := fetchData_all_fail transport hfail
  obtain ⟨e, he⟩ : ∃ e, (fetchData transport).1 = Except.error e := by
    cases hr : (fetchData transport).1 with
    | ok r => rw [hr] at herr; simp [isErrB] at herr
    | error e => exact ⟨e, rfl⟩
  have hp : parseFetched c (fetchData transport).1 = Except.error e := by
    rw [he]
    rfl
  rw [getDataForMonth_miss_err c cache now transport hmiss e hp]
  refine ⟨rfl, ?_, ?_⟩
  · show (fetchData transport).2.1 = 3
    rw [hfd]
  · intro pre post
    exact foldl_mergeStep_neutral _ (fun acc => mergeStep_ok_empty acc)
      pre post

/-- C8 witness: the always-failing transport with caching disabled. -/
theorem failed_transport_empty_spec_witness :
    (getDataForMonth cfg0 none 0 trFail).result =
      Except.ok (∅ : Finset (List String)) ∧
    (getDataForMonth cfg0 none 0 trFail).attempts = 3 :=
  ⟨(failed_transport_empty_spec cfg0 none 0 trFail (fun _ => rfl) rfl).1,
   (failed_transport_empty_spec cfg0 none 0 trFail (fun _ => rfl) rfl).2.1⟩

/-- C9: the filter predicate's verdict depends only on the record's
transaction_type and ticker fields: for any two records agreeing on
those two lookups, and with the numeric thresholds
min_transaction_value and min_shares_traded replaced by arbitrary
values, `_apply_filters` returns the same boolean — the thresholds never
cause a rejection inside the predicate. -/
theorem filter_depends_only_on_type_ticker (c : ScraperConfig) (v : Int)
    (s : Nat) (d1 d2 : Dict)
    (h1 : Dict.get d1 "transaction_type" = Dict.get d2 "transaction_type")
    (h2 : Dict.get d1 "ticker" = Dict.get d2 "ticker") :
    applyFilters
      {c with min_transaction_value := v, min_shares_traded := s} d1 =
    applyFilters c d2 := by
  unfold applyFilters applyFiltersCore
  rw [h1, h2]

/-- C9 witness: raising both thresholds to a million changes nothing for
a concrete purchase record. -/
theorem filter_depends_only_on_type_ticker_witness :
    applyFilters
      {cfg0 with min_transaction_value := 1000000, min_shares_traded := 1000000}
      [("transaction_type", "P - Purchase"), ("ticker", "A")] =
    applyFilters cfg0
      [("transaction_type", "P - Purchase"), ("ticker", "A")] :=
  filter_depends_only_on_type_ticker cfg0 1000000 1000000
    [("transaction_type", "P - Purchase"), ("ticker", "A")]
    [("transaction_type", "P - Purchase"), ("ticker", "A")] rfl rfl
